import Mathlib

/-!
# ca-ctl: permissioned file depot and export pipeline

A shallow embedding of `depot/depot.go`, `cmd/export.go` and `cmd/util.go`.

* Go `error` values are `GoError`; a `(T, error)` result is `Except GoError T`
  and a bare `error` result is `Option GoError` (`none` is Go `nil`).
* A `[]byte` is a `List Nat` of byte values; an argument that may be the
  `nil` slice is an `Option Bytes`.
* `os.FileMode` is a `uint32`, carried as a `Nat` and reduced `% 2 ^ 32`
  where the bitwise complement is taken.
* The file system is explicit state: the entries of the depot directory, each
  with owner, mode, the size `stat` reports and the bytes a read returns. It
  is threaded through every operation that touches it, next to the
  credentials and umask of the running process.
-/

namespace CaCtl

/-! ## Go values -/

/-- Byte slices. -/
abbrev Bytes := List Nat

/-- Go `error` values: `errors.New` strings and `*os.PathError`. -/
inductive GoError where
  | errorString (s : String)
  | pathError (op : String) (path : String) (err : String)
  deriving DecidableEq, Repr

/-- The method `Error()` of an error value. -/
def GoError.Error : GoError → String
  | .errorString s => s
  | .pathError op path err => op ++ " " ++ path ++ ": " ++ err

deriving instance DecidableEq for Except

/-- Go `errors.New`. -/
def errorsNew (s : String) : GoError := .errorString s

/-! ## Paths -/

/-- The pieces of a name between its separators `/`; `cur` holds the piece
being read, last character first. -/
def splitAux : List Char → List Char → List String
  | [], cur => [String.mk cur.reverse]
  | c :: rest, cur =>
    if c = '/' then String.mk cur.reverse :: splitAux rest [] else splitAux rest (c :: cur)

/-- One step of the lexical cleaning of `filepath.Clean`: empty pieces and `.`
are dropped, `..` cancels the piece before it. -/
def cleanStep (acc : List String) (c : String) : List String :=
  if c = "" ∨ c = "." then acc
  else if c = ".." then
    match acc.getLast? with
    | none => [".."]
    | some l => if l = ".." then acc ++ [".."] else acc.dropLast
  else acc ++ [c]

/-- The name as `filepath.Join` leaves it below the directory it is joined to. -/
def cleanName (name : String) : String :=
  "/".intercalate ((splitAux name.data []).foldl cleanStep [])

/-- A path below a directory: the directory and the cleaned name below it. -/
structure Path where
  dir : String
  base : String
  deriving DecidableEq, Repr

/-- The text of a path, as it shows up in `*os.PathError`. -/
def Path.text (p : Path) : String := p.dir ++ "/" ++ p.base

/-- Go `filepath.Join(dir, name)`. -/
def filepathJoin (dir name : String) : Path := ⟨dir, cleanName name⟩

/-- A plain file name: not empty, not `.` or `..`, without separator or NUL,
and at most 255 bytes long. -/
def plainName (name : String) : Bool :=
  decide (name ≠ "" ∧ name ≠ "." ∧ name ≠ ".." ∧ '/' ∉ name.data ∧ Char.ofNat 0 ∉ name.data ∧
    name.utf8ByteSize ≤ 255)

/-- Why the kernel refuses to create a file at `p`, if it does: the path is
the depot directory or its parent, holds a NUL, or is too long; a path with a
separator left after cleaning leads through a subdirectory or out of the
depot directory, which holds no subdirectory and whose surroundings are not
part of the state, and is refused as not found. -/
def createRefusal (p : Path) : Option String :=
  if p.base = "" ∨ p.base = "." ∨ p.base = ".." then some "file exists"
  else if '/' ∈ p.base.data then some "no such file or directory"
  else if Char.ofNat 0 ∈ p.base.data then some "invalid argument"
  else if 255 < p.base.utf8ByteSize ∨ 4095 < p.text.utf8ByteSize then some "file name too long"
  else none

/-! ## File system -/

/-- Go `os.ModePerm`, the nine Unix permission bits. -/
def ModePerm : Nat := 0o777

/-- Go `os.ModeSetuid`. -/
def ModeSetuid : Nat := 2 ^ 23

/-- Go `os.ModeSetgid`. -/
def ModeSetgid : Nat := 2 ^ 22

/-- Go `os.ModeSticky`. -/
def ModeSticky : Nat := 2 ^ 20

/-- The number of values of a `uint32`. -/
def u32 : Nat := 2 ^ 32

/-- Go `^x` on a `uint32`: exclusive or with the all-ones word. -/
def bitNot32 (x : Nat) : Nat := (u32 - 1) ^^^ (x % u32)

/-- The running process: user, group, supplementary groups and umask. -/
structure Proc where
  uid : Nat
  gid : Nat
  groups : List Nat
  umask : Nat
  deriving DecidableEq, Repr

/-- An entry of the depot directory as `os.Stat` and a read see it: owner,
group, mode, the size that `stat` reports and the bytes that a read returns.
The two agree for a regular file at rest; they differ for an entry such as a
link to a file whose content the kernel generates. -/
structure Node where
  uid : Nat
  gid : Nat
  mode : Nat
  size : Nat
  data : Bytes
  deriving DecidableEq, Repr

/-- The file system: which paths hold an entry. -/
abbrev FS := List (Path × Node)

/-- What `os.Stat` reports (`os.FileInfo`): base name, size and mode. -/
structure FileInfo where
  name : String
  size : Nat
  mode : Nat
  deriving DecidableEq, Repr

/-- Whether the process may open the entry for reading: the superuser always,
else by the read bit of the class (owner, group, other) the process is in. -/
def mayRead (P : Proc) (n : Node) : Bool :=
  if P.uid = 0 then true
  else if P.uid = n.uid then n.mode &&& 0o400 != 0
  else if n.gid = P.gid ∨ n.gid ∈ P.groups then n.mode &&& 0o040 != 0
  else n.mode &&& 0o004 != 0

/-- The mode `os.Stat` reports for a file created with `perm` under `umask`:
only the permission, setuid, setgid and sticky bits of `perm` are passed to
the kernel, and the permission bits of the umask are cleared. -/
def createdMode (perm umask : Nat) : Nat :=
  ((perm &&& ModePerm) &&& bitNot32 (umask &&& ModePerm)) |||
    ((perm % u32) &&& (ModeSetuid ||| ModeSetgid ||| ModeSticky))

/-- Go `os.Stat`: the info of the entry at `p`, or a path error. -/
def osStat (fs : FS) (p : Path) : Except GoError FileInfo :=
  match fs.lookup p with
  | some n => .ok { name := p.base, size := n.size, mode := n.mode }
  | none => .error (.pathError "stat" p.text "no such file or directory")

/-- Go `ioutil.ReadFile`: the bytes a read of the entry at `p` returns, when
the process may open it. -/
def ioutilReadFile (P : Proc) (fs : FS) (p : Path) : Except GoError Bytes :=
  match fs.lookup p with
  | some n =>
    if mayRead P n then .ok n.data else .error (.pathError "open" p.text "permission denied")
  | none => .error (.pathError "open" p.text "no such file or directory")

/-- Go `os.MkdirAll(dir, perm)`. Directories are not part of the state; the
call leaves the files alone and, on the modelled medium, reports no error. -/
def osMkdirAll (fs : FS) (_dir : String) (_perm : Nat) : FS × Option GoError :=
  (fs, none)

/-- Go `os.OpenFile(p, O_WRONLY|O_CREATE|O_EXCL, perm)`: fails when `p` is
taken or cannot name a file of the directory, else creates an empty file
there, owned by the process, with mode `createdMode perm umask`. -/
def osOpenFileExcl (P : Proc) (fs : FS) (p : Path) (perm : Nat) : FS × Option GoError :=
  match fs.lookup p with
  | some _ => (fs, some (.pathError "open" p.text "file exists"))
  | none =>
    match createRefusal p with
    | some msg => (fs, some (.pathError "open" p.text msg))
    | none =>
      ((p, { uid := P.uid, gid := P.gid, mode := createdMode perm P.umask, size := 0,
             data := [] }) :: fs, none)

/-- Go `(*os.File).Write(data)` on the file just opened at `p`: appends
`data` to its content and grows its size. -/
def fileWrite (fs : FS) (p : Path) (data : Bytes) : FS × Option GoError :=
  (fs.map (fun e =>
      if e.1 = p then
        (e.1, { e.2 with size := e.2.size + data.length, data := e.2.data ++ data })
      else e), none)

/-- Go `os.Remove(p)`. -/
def osRemove (fs : FS) (p : Path) : FS × Option GoError :=
  match fs.lookup p with
  | some _ => (fs.filter (fun e => e.1 ≠ p), none)
  | none => (fs, some (.pathError "remove" p.text "no such file or directory"))

/-! ## depot/depot.go -/

/-- Tag includes name and permission requirement. -/
structure Tag where
  name : String
  perm : Nat
  deriving DecidableEq, Repr

/-- FileDepot is the implementation of Depot over the file system. -/
structure FileDepot where
  dirPath : String
  deriving DecidableEq, Repr

/-- `(*FileDepot).path`. -/
def FileDepot.path (d : FileDepot) (name : String) : Path :=
  filepathJoin d.dirPath name

/-- `(*FileDepot).Put`: the new file system and the returned error. -/
def FileDepot.Put (P : Proc) (d : FileDepot) (tag : Tag) (data : Option Bytes) (fs : FS) :
    FS × Option GoError :=
  match data with
  | none => (fs, some (errorsNew "data is nil"))
  | some bytes =>
    match osMkdirAll fs d.dirPath 0o755 with
    | (fs1, some err) => (fs1, some err)
    | (fs1, none) =>
      let name := d.path tag.name
      let perm := tag.perm
      match osOpenFileExcl P fs1 name perm with
      | (fs2, some err) => (fs2, some err)
      | (fs2, none) =>
        match fileWrite fs2 name bytes with
        | (fs3, some err) => ((osRemove fs3 name).1, some err)
        | (fs3, none) => (fs3, none)

/-- The test `^fi.Mode()&tag.perm` of `Check` and `check`. -/
def permTest (mode perm : Nat) : Nat := bitNot32 mode &&& (perm % u32)

/-- `(*FileDepot).Check`. -/
def FileDepot.Check (d : FileDepot) (tag : Tag) (fs : FS) : Bool :=
  let name := d.path tag.name
  match osStat fs name with
  | .ok fi => permTest fi.mode tag.perm == 0
  | .error _ => false

/-- `(*FileDepot).check`. -/
def FileDepot.check (d : FileDepot) (tag : Tag) (fs : FS) : Option GoError :=
  let name := d.path tag.name
  match osStat fs name with
  | .error err => some err
  | .ok fi =>
    if permTest fi.mode tag.perm ≠ 0 then some (errorsNew "permission denied")
    else none

/-- `(*FileDepot).Get`. -/
def FileDepot.Get (P : Proc) (d : FileDepot) (tag : Tag) (fs : FS) : Except GoError Bytes :=
  match d.check tag fs with
  | some err => .error err
  | none => ioutilReadFile P fs (d.path tag.name)

/-- `(*FileDepot).Delete`. -/
def FileDepot.Delete (d : FileDepot) (tag : Tag) (fs : FS) : FS × Option GoError :=
  osRemove fs (d.path tag.name)

/-- File is what `GetFile` hands out: the stat info and the content. -/
structure File where
  Info : FileInfo
  Data : Bytes
  deriving DecidableEq, Repr

/-- `(*FileDepot).GetFile`. A failed read is returned as the error alone: no
caller looks at the `File` that accompanies a non-nil error. -/
def FileDepot.GetFile (P : Proc) (d : FileDepot) (tag : Tag) (fs : FS) : Except GoError File :=
  match d.check tag fs with
  | some err => .error err
  | none =>
    match osStat fs (d.path tag.name) with
    | .error err => .error err
    | .ok fi =>
      match ioutilReadFile P fs (d.path tag.name) with
      | .error err => .error err
      | .ok b => .ok ⟨fi, b⟩

/-! ## archive/tar -/

/-- The fields of `tar.Header` that the export code sets or that the writer
reads: entry name, mode bits and payload size. -/
structure TarHeader where
  Name : String
  Mode : Nat
  Size : Nat
  deriving DecidableEq, Repr

/-- The `Mode` that `tar.FileInfoHeader` derives from a file mode: the
permission bits, and the setuid, setgid and sticky bits in their tar encoding. -/
def tarModeBits (mode : Nat) : Nat :=
  let m0 := mode &&& ModePerm
  let m1 := if mode &&& ModeSetuid ≠ 0 then m0 ||| 0o4000 else m0
  let m2 := if mode &&& ModeSetgid ≠ 0 then m1 ||| 0o2000 else m1
  if mode &&& ModeSticky ≠ 0 then m2 ||| 0o1000 else m2

/-- Go `tar.FileInfoHeader(fi, "")` on the info of a regular file: the name
of `fi`, the size that `stat` reported and the mode bits `tarModeBits`. -/
def tarFileInfoHeader (fi : FileInfo) : Except GoError TarHeader :=
  .ok { Name := fi.name, Mode := tarModeBits fi.mode, Size := fi.size }

/-- What a `tar.Writer` has put on its output stream. -/
inductive TarRecord where
  | header (h : TarHeader)
  | payload (b : Bytes)
  | trailer
  deriving DecidableEq, Repr

/-- A `tar.Writer`: the records written so far and `nb`, the number of
payload bytes the current entry still expects. -/
structure TarWriter where
  out : List TarRecord
  nb : Nat
  deriving DecidableEq, Repr

/-- Go `tar.NewWriter`. -/
def tarNewWriter : TarWriter := ⟨[], 0⟩

/-- Go `(*tar.Writer).WriteHeader`: refuses when the previous entry is short
of payload, else writes the header and expects `Size` bytes. -/
def TarWriter.WriteHeader (w : TarWriter) (h : TarHeader) : TarWriter × Option GoError :=
  if w.nb ≠ 0 then
    (w, some (errorsNew ("archive/tar: missed writing " ++ toString w.nb ++ " bytes")))
  else (⟨w.out ++ [.header h], h.Size⟩, none)

/-- Go `(*tar.Writer).Write`: writes at most `nb` bytes and reports
`ErrWriteTooLong` when `b` is longer. -/
def TarWriter.Write (w : TarWriter) (b : Bytes) : TarWriter × Option GoError :=
  if w.nb < b.length then
    (⟨w.out ++ [.payload (b.take w.nb)], 0⟩, some (errorsNew "archive/tar: write too long"))
  else (⟨w.out ++ [.payload b], w.nb - b.length⟩, none)

/-- Go `(*tar.Writer).Close`: the end-of-archive marker. -/
def TarWriter.Close (w : TarWriter) : TarWriter := ⟨w.out ++ [.trailer], 0⟩

/-! ## cmd/util.go and the collaborators of cmd/export.go -/

/-- The parts of `cli.Context` the export command reads: positional
arguments, the `insecure` flag, and the `passphrase` flag (`none` when the
flag is not set, else the bytes of its string value). -/
structure Context where
  args : List String
  insecure : Bool
  passphrase : Option Bytes
  deriving DecidableEq, Repr

/-- Code the export command calls that lives outside the embedded files: the
tag constructors and `GetCertificateAuthority` of package `depot`, the key
functions of package `pkix`, and the terminal read behind `askPassPhrase`. -/
structure Collaborators (Key : Type) where
  AuthCrtTag : Tag
  AuthPrivKeyTag : Tag
  HostCrtTag : String → Tag
  HostPrivKeyTag : String → Tag
  GetCertificateAuthority : Proc → FileDepot → FS → Option GoError
  NewKeyFromEncryptedPrivateKeyPEM : Bytes → Bytes → Except GoError Key
  ExportPrivate : Key → Except GoError Bytes
  ReadPassword : String → Bytes

/-- `askPassPhrase`: prompts for `name` and returns what the terminal read. -/
def askPassPhrase {Key : Type} (X : Collaborators Key) (name : String) : Bytes :=
  X.ReadPassword name

/-- `getPassPhrase`. -/
def getPassPhrase {Key : Type} (X : Collaborators Key) (c : Context) (name : String) : Bytes :=
  match c.passphrase with
  | some s => s
  | none => askPassPhrase X name

/-- `isFileNotExist`. -/
def isFileNotExist (err : Option GoError) : Bool :=
  match err with
  | some (.pathError _ _ e) => e == "no such file or directory"
  | _ => false

/-! ## cmd/export.go -/

/-- The constant `crtSuffix`. -/
def crtSuffix : String := ".crt"

/-- The constant `keySuffix`. -/
def keySuffix : String := ".key"

/-- The constant `insecureSuffix`. -/
def insecureSuffix : String := ".insecure"

/-- TarFile is one export entry: header and payload. -/
structure TarFile where
  Header : TarHeader
  Data : Bytes
  deriving DecidableEq, Repr

/-- `decryptEncryptedKeyTarFile`. -/
def decryptEncryptedKeyTarFile {Key : Type} (X : Collaborators Key) (file : TarFile)
    (passphrase : Bytes) : Except GoError TarFile :=
  match X.NewKeyFromEncryptedPrivateKeyPEM file.Data passphrase with
  | .error err => .error err
  | .ok key =>
    match X.ExportPrivate key with
    | .error err => .error err
    | .ok data =>
      let file := { file with Data := data }
      let file := { file with Header := { file.Header with Name := file.Header.Name ++ insecureSuffix } }
      let file := { file with Header := { file.Header with Size := file.Data.length } }
      .ok file

/-- `generateTarFile`, with `tar.FileInfoHeader` passed in as `fileInfoHeader`. -/
def generateTarFile (fileInfoHeader : FileInfo → Except GoError TarHeader) (file : File)
    (newName : String) : Except GoError TarFile :=
  match fileInfoHeader file.Info with
  | .error err => .error err
  | .ok header =>
    let header := { header with Name := newName }
    let header := { header with Mode := header.Mode ||| 0o644 }
    .ok ⟨header, file.Data⟩

/-- `getAuthFiles`. -/
def getAuthFiles {Key : Type} (fileInfoHeader : FileInfo → Except GoError TarHeader)
    (X : Collaborators Key) (P : Proc) (d : FileDepot) (c : Context) (fs : FS) :
    Except GoError (List TarFile) :=
  let name := "ca"
  let tarFiles : List TarFile := []
  match d.GetFile P X.AuthCrtTag fs with
  | .error err => .error (errorsNew ("Get CA certificate error: " ++ err.Error))
  | .ok crtFile =>
    match generateTarFile fileInfoHeader crtFile (name ++ crtSuffix) with
    | .error err => .error (errorsNew ("Generate certificate tar file error: " ++ err.Error))
    | .ok crtTarFile =>
      let tarFiles := tarFiles ++ [crtTarFile]
      match d.GetFile P X.AuthPrivKeyTag fs with
      | .error err => .error (errorsNew ("Get CA key error: " ++ err.Error))
      | .ok keyFile =>
        match generateTarFile fileInfoHeader keyFile (name ++ keySuffix) with
        | .error err => .error (errorsNew ("Generate key tar file error: " ++ err.Error))
        | .ok keyTarFile =>
          if c.insecure then
            match decryptEncryptedKeyTarFile X keyTarFile (getPassPhrase X c (name ++ " key")) with
            | .error err => .error (errorsNew ("Get decrypted CA key error: " ++ err.Error))
            | .ok keyTarFile => .ok (tarFiles ++ [keyTarFile])
          else .ok (tarFiles ++ [keyTarFile])

/-- `getHostFiles`. -/
def getHostFiles {Key : Type} (fileInfoHeader : FileInfo → Except GoError TarHeader)
    (X : Collaborators Key) (P : Proc) (d : FileDepot) (c : Context) (name : String) (fs : FS) :
    Except GoError (List TarFile) :=
  let tarFiles : List TarFile := []
  match d.GetFile P (X.HostCrtTag name) fs with
  | .error err => .error (errorsNew ("Get host certificate error: " ++ err.Error))
  | .ok crtFile =>
    match generateTarFile fileInfoHeader crtFile (name ++ crtSuffix) with
    | .error err => .error (errorsNew ("Generate certificate tar file error: " ++ err.Error))
    | .ok crtTarFile =>
      let tarFiles := tarFiles ++ [crtTarFile]
      match d.GetFile P (X.HostPrivKeyTag name) fs with
      | .error err => .error (errorsNew ("Get host key error: " ++ err.Error))
      | .ok keyFile =>
        match generateTarFile fileInfoHeader keyFile (name ++ keySuffix) with
        | .error err => .error (errorsNew ("Generate key tar file error: " ++ err.Error))
        | .ok keyTarFile =>
          if c.insecure then
            match decryptEncryptedKeyTarFile X keyTarFile (getPassPhrase X c (name ++ " key")) with
            | .error err => .error (errorsNew ("Get decrypted host key error: " ++ err.Error))
            | .ok keyTarFile => .ok (tarFiles ++ [keyTarFile])
          else .ok (tarFiles ++ [keyTarFile])

/-- `outputTarFiles`: the writer after the loop and the returned error. -/
def outputTarFiles (out : TarWriter) (files : List TarFile) : TarWriter × Option GoError :=
  match files with
  | [] => (out, none)
  | file :: rest =>
    match out.WriteHeader file.Header with
    | (out1, some err) => (out1, some err)
    | (out1, none) =>
      match out1.Write file.Data with
      | (out2, some err) => (out2, some err)
      | (out2, none) => outputTarFiles out2 rest

/-- What one run of the export command leaves behind: the exit code, the
lines on standard error and the records on standard output. -/
structure Outcome where
  exitCode : Nat
  stderr : List String
  stdout : List TarRecord
  deriving DecidableEq, Repr

/-- `newExportAction`. `os.Exit(1)` ends the run without the deferred
`w.Close()`; a normal return runs it. -/
def newExportAction {Key : Type} (fileInfoHeader : FileInfo → Except GoError TarHeader)
    (X : Collaborators Key) (P : Proc) (d : FileDepot) (c : Context) (fs : FS) : Outcome :=
  if c.args.length > 1 then
    ⟨1, ["At most one host name could be provided."], []⟩
  else if isFileNotExist (X.GetCertificateAuthority P d fs) then
    ⟨1, ["Please run 'ca-ctl init' to initial the depot."], []⟩
  else
    let r :=
      match c.args with
      | [] => getAuthFiles fileInfoHeader X P d c fs
      | host :: _ => getHostFiles fileInfoHeader X P d c host fs
    match r with
    | .error err => ⟨1, [err.Error], []⟩
    | .ok files =>
      let w := tarNewWriter
      match outputTarFiles w files with
      | (w1, some err) => ⟨1, ["Save tar error: " ++ err.Error], w1.out⟩
      | (w1, none) => ⟨0, [], w1.Close.out⟩


/-! ## Concrete depots -/

/-- The user `core`: uid and gid 1000, umask `022`. -/
def core : Proc := ⟨1000, 1000, [], 0o022⟩

/-- The user `core` with the umask cleared. -/
def coreNoMask : Proc := ⟨1000, 1000, [], 0⟩

/-- The depot of `core`. -/
def exDepot : FileDepot := ⟨"/home/core/.ca"⟩

/-- The path of `name` in the depot of `core`. -/
def exPath (name : String) : Path := ⟨"/home/core/.ca", name⟩

/-- A regular file at rest, owned by user and group `uid`. -/
def regularFile (uid mode : Nat) (data : Bytes) : Node := ⟨uid, uid, mode, data.length, data⟩

/-- The CA key tag with owner-only permission `0600`. -/
def ownerOnlyKeyTag : Tag := ⟨"ca.key", 0o600⟩

/-- A depot directory whose `ca.key` was created by another user, uid 1001,
world readable and writable (`0666`). -/
def looseKeyFS : FS := [(exPath "ca.key", regularFile 1001 0o666 [45, 45, 75, 69, 89])]

/-- A depot directory whose `ca.key` is owner read-only (`0400`). -/
def narrowKeyFS : FS := [(exPath "ca.key", regularFile 1000 0o400 [45, 45, 75, 69, 89])]

/-- The CA certificate tag with permission `0444`. -/
def readOnlyCrtTag : Tag := ⟨"ca.crt", 0o444⟩

/-- A depot directory that already holds a certificate. -/
def oneCrtFS : FS := [(exPath "ca.crt", regularFile 1000 0o444 [67, 69, 82, 84])]

/-- A depot directory whose `ca.key` is readable and writable by owner and
group (`0660`). -/
def groupKeyFS : FS := [(exPath "ca.key", regularFile 1000 0o660 [45, 45, 75, 69, 89])]

/-- The CA key tag with permission `0660`. -/
def groupKeyTag : Tag := ⟨"ca.key", 0o660⟩

/-! ## Concrete collaborators -/

/-- A header builder that fails on the file called `name` and otherwise
agrees with `tarFileInfoHeader`: a stand-in for a failing `tar.FileInfoHeader`. -/
def failingHeaderOn (name : String) (fi : FileInfo) : Except GoError TarHeader :=
  if fi.name = name then .error (errorsNew "archive/tar: unknown file mode")
  else tarFileInfoHeader fi

/-- Sample collaborators. Tags: `ca.crt` and `<host>.host.crt` with `0444`,
`ca.key` and `<host>.host.key` with `0440`. Keys: an encrypted key is the
passphrase followed by the plain key; parsing checks the passphrase `[7, 7]`
and an empty plain key cannot be exported. -/
def sampleX : Collaborators Bytes where
  AuthCrtTag := ⟨"ca.crt", 0o444⟩
  AuthPrivKeyTag := ⟨"ca.key", 0o440⟩
  HostCrtTag := fun n => ⟨n ++ ".host.crt", 0o444⟩
  HostPrivKeyTag := fun n => ⟨n ++ ".host.key", 0o440⟩
  GetCertificateAuthority := fun P d fs =>
    match d.Get P ⟨"ca.crt", 0o444⟩ fs with
    | .ok _ => none
    | .error e => some e
  NewKeyFromEncryptedPrivateKeyPEM := fun data pass =>
    if pass = [7, 7] ∧ data.take 2 = pass then .ok (data.drop 2)
    else .error (errorsNew "x509: decryption password incorrect")
  ExportPrivate := fun key =>
    if key = [] then .error (errorsNew "unsupported private key") else .ok key
  ReadPassword := fun _ => []

/-- A depot with the CA pair and the pair of host `www`; both keys are
encrypted under the passphrase `[7, 7]`. -/
def fullFS : FS :=
  [ (exPath "ca.crt", regularFile 1000 0o444 [67, 65]),
    (exPath "ca.key", regularFile 1000 0o440 [7, 7, 1, 2, 3]),
    (exPath "www.host.crt", regularFile 1000 0o444 [87, 87, 87]),
    (exPath "www.host.key", regularFile 1000 0o440 [7, 7, 9, 8, 7, 6]) ]

/-- A depot that holds the certificates but no key. -/
def crtOnlyFS : FS :=
  [ (exPath "ca.crt", regularFile 1000 0o444 [67, 65]),
    (exPath "www.host.crt", regularFile 1000 0o444 [87, 87, 87]) ]

/-- A depot whose `ca.crt` is a link to a file with generated content: `stat`
reports size 0 and a read returns 6 bytes. The key is a regular file. -/
def generatedCrtFS : FS :=
  [ (exPath "ca.crt", ⟨1000, 1000, 0o444, 0, [67, 65, 67, 69, 82, 84]⟩),
    (exPath "ca.key", regularFile 1000 0o440 [7, 7, 1, 2, 3]) ]

/-- The command line `export` without flags. -/
def plainCtx : Context := ⟨[], false, none⟩

/-- The command line `export --insecure --passphrase <7 7> www`. -/
def insecureCtx : Context := ⟨["www"], true, some [7, 7]⟩

/-- The command line `export --insecure --passphrase <1> www`, a wrong passphrase. -/
def wrongPassCtx : Context := ⟨["www"], true, some [1]⟩

/-- The command line `export --insecure --passphrase <1>`, a wrong passphrase
for the CA key. -/
def wrongPassCaCtx : Context := ⟨[], true, some [1]⟩

/-- The command line `export www`. -/
def hostCtx : Context := ⟨["www"], false, none⟩

/-! ## Lemmas on paths, modes and the file system -/

theorem permTest_self (p : Nat) : permTest p p = 0 := by
  unfold permTest bitNot32 u32
  apply Nat.eq_of_testBit_eq
  intro i
  simp only [Nat.testBit_and, Nat.testBit_xor, Nat.testBit_two_pow_sub_one,
    Nat.testBit_mod_two_pow, Nat.zero_testBit]
  cases decide (i < 32) <;> cases p.testBit i <;> rfl

/-- The permission test passes exactly when every bit of the required mask
is set in the file mode. -/
theorem permTest_eq_zero_iff (m p : Nat) :
    permTest m p = 0 ↔ ∀ i, i < 32 → p.testBit i = true → m.testBit i = true := by
  unfold permTest bitNot32 u32
  constructor
  · intro h i hi hp
    have hb := congrArg (fun x => Nat.testBit x i) h
    simp only [Nat.testBit_and, Nat.testBit_xor, Nat.testBit_two_pow_sub_one,
      Nat.testBit_mod_two_pow, Nat.zero_testBit, hi, hp, decide_True] at hb
    cases hm : m.testBit i
    · simp [hm] at hb
    · rfl
  · intro h
    apply Nat.eq_of_testBit_eq
    intro i
    simp only [Nat.testBit_and, Nat.testBit_xor, Nat.testBit_two_pow_sub_one,
      Nat.testBit_mod_two_pow, Nat.zero_testBit]
    by_cases hi : i < 32
    · cases hp : p.testBit i
      · simp
      · simp [hi, h i hi hp]
    · simp [hi]

theorem splitAux_no_sep (cs cur : List Char) (h : '/' ∉ cs) :
    splitAux cs cur = [String.mk (cur.reverse ++ cs)] := by
  induction cs generalizing cur with
  | nil => simp [splitAux]
  | cons c rest ih =>
    have hc : c ≠ '/' := fun e => h (by simp [e])
    have hr : '/' ∉ rest := fun e => h (by simp [e])
    simp [splitAux, hc, ih _ hr]

/-- Cleaning leaves a plain file name as it is. -/
theorem cleanName_plain (name : String) (h : plainName name = true) : cleanName name = name := by
  simp only [plainName, decide_eq_true_eq] at h
  obtain ⟨h1, h2, h3, h4, -, -⟩ := h
  unfold cleanName
  rw [splitAux_no_sep _ _ h4]
  simp [cleanStep, h1, h2, h3, String.intercalate, String.intercalate.go]

/-- The path of a plain file name is that name in the depot directory. -/
theorem path_plain (d : FileDepot) (name : String) (h : plainName name = true) :
    d.path name = ⟨d.dirPath, name⟩ := by
  simp [FileDepot.path, filepathJoin, cleanName_plain name h]

/-- A plain file name within the path-length limit can be created. -/
theorem createRefusal_plain (d : FileDepot) (name : String) (h : plainName name = true)
    (hlen : (d.dirPath ++ "/" ++ name).utf8ByteSize ≤ 4095) :
    createRefusal (d.path name) = none := by
  rw [path_plain d name h]
  simp only [plainName, decide_eq_true_eq] at h
  obtain ⟨h1, h2, h3, h4, h5, h6⟩ := h
  have h6 : ¬ 255 < name.utf8ByteSize := by omega
  have h7 : ¬ 4095 < (d.dirPath ++ "/" ++ name).utf8ByteSize := by omega
  simp [createRefusal, Path.text, h1, h2, h3, h4, h5, h6, h7]

/-- A mask of permission bits that the umask leaves alone is created as it is. -/
theorem createdMode_eq (perm umask : Nat) (hp : perm &&& ModePerm = perm)
    (hm : perm &&& umask = 0) : createdMode perm umask = perm := by
  unfold createdMode bitNot32 u32 ModePerm ModeSetuid ModeSetgid ModeSticky
  unfold ModePerm at hp
  apply Nat.eq_of_testBit_eq
  intro i
  have hpi := congrArg (fun x => Nat.testBit x i) hp
  have hmi := congrArg (fun x => Nat.testBit x i) hm
  have e511 : (0o777 : Nat) = 2 ^ 9 - 1 := by norm_num
  simp only [e511, Nat.testBit_and, Nat.testBit_or, Nat.testBit_xor,
    Nat.testBit_two_pow_sub_one, Nat.testBit_mod_two_pow, Nat.zero_testBit,
    Nat.testBit_two_pow] at hpi hmi ⊢
  by_cases h9 : i < 9
  · have h32 : i < 32 := by omega
    have n23 : ¬ 23 = i := by omega
    have n22 : ¬ 22 = i := by omega
    have n20 : ¬ 20 = i := by omega
    cases hb : perm.testBit i
    · simp [hb]
    · simp only [hb, Bool.true_and] at hmi
      simp [hb, h9, h32, hmi, n23, n22, n20]
  · have hf : perm.testBit i = false := by
      cases hb : perm.testBit i
      · rfl
      · simp [hb, h9] at hpi
    simp [hf]

theorem map_write_of_lookup_none (fs : FS) (p : Path) (data : Bytes)
    (h : fs.lookup p = none) :
    fs.map (fun e =>
      if e.1 = p then
        (e.1, { e.2 with size := e.2.size + data.length, data := e.2.data ++ data })
      else e) = fs := by
  induction fs with
  | nil => rfl
  | cons e rest ih =>
    obtain ⟨k, n⟩ := e
    rw [List.lookup_cons] at h
    by_cases hk : p = k
    · subst hk
      simp at h
    · have hb : (p == k) = false := by simpa using hk
      rw [hb] at h
      have hk2 : ¬ k = p := fun e => hk e.symm
      simp [hk2, ih h]

theorem lookup_cons_self (fs : FS) (p : Path) (n : Node) :
    List.lookup p ((p, n) :: fs) = some n := by
  simp [List.lookup_cons]

/-- On a depot without an entry at the path of the tag, and when the kernel
accepts the path, `Put` of non-nil data adds exactly one file: owned by the
process, with the created mode and the data as content. -/
theorem Put_fresh (P : Proc) (d : FileDepot) (t : Tag) (data : Bytes) (fs : FS)
    (h : fs.lookup (d.path t.name) = none) (hr : createRefusal (d.path t.name) = none) :
    d.Put P t (some data) fs
      = ((d.path t.name,
          ⟨P.uid, P.gid, createdMode t.perm P.umask, data.length, data⟩) :: fs, none) := by
  simp [FileDepot.Put, osMkdirAll, osOpenFileExcl, h, hr, fileWrite,
    map_write_of_lookup_none fs _ data h]

/-- On a depot that holds an entry at the path of the tag, `Put` of non-nil
data fails at the exclusive create and changes nothing. -/
theorem Put_taken (P : Proc) (d : FileDepot) (t : Tag) (data : Bytes) (fs : FS) (n : Node)
    (h : fs.lookup (d.path t.name) = some n) :
    d.Put P t (some data) fs
      = (fs, some (.pathError "open" (d.path t.name).text "file exists")) := by
  simp [FileDepot.Put, osMkdirAll, osOpenFileExcl, h]

/-- On a depot without an entry at the path of the tag, `Put` of non-nil data
either creates the file or fails with a path error of the exclusive create. -/
theorem Put_fresh_error (P : Proc) (d : FileDepot) (t : Tag) (data : Bytes) (fs : FS)
    (h : fs.lookup (d.path t.name) = none) :
    (d.Put P t (some data) fs).2 = none ∨
      ∃ msg, (d.Put P t (some data) fs).2 = some (.pathError "open" (d.path t.name).text msg) := by
  cases hr : createRefusal (d.path t.name) with
  | none => left; rw [Put_fresh P d t data fs h hr]
  | some msg =>
    right
    exact ⟨msg, by simp [FileDepot.Put, osMkdirAll, osOpenFileExcl, h, hr]⟩

/-- `GetFile` succeeds only with the stat info and content of one stored
entry that passes the permission test and that the process may read. -/
theorem GetFile_ok (P : Proc) (d : FileDepot) (t : Tag) (fs : FS) (f : File)
    (h : d.GetFile P t fs = .ok f) :
    ∃ n, fs.lookup (d.path t.name) = some n ∧
      f = ⟨⟨(d.path t.name).base, n.size, n.mode⟩, n.data⟩ ∧ permTest n.mode t.perm = 0 ∧
      mayRead P n = true := by
  unfold FileDepot.GetFile FileDepot.check osStat ioutilReadFile at h
  cases hl : fs.lookup (d.path t.name) with
  | none => simp [hl] at h
  | some n =>
    refine ⟨n, rfl, ?_⟩
    by_cases hp : permTest n.mode t.perm = 0
    · by_cases hr : mayRead P n = true
      · simp [hl, hp, hr] at h
        exact ⟨h.symm, hp, hr⟩
      · simp [hl, hp, hr] at h
    · simp [hl, hp] at h

/-! ## Claims on the depot -/

/-- C1 (the code departs from the claim): `Check` answers true for a file
whose mode `0666` is broader than the required `0600`, where the claim asks
for false, and answers false for a file whose mode `0400` lies inside the
required `0600`, where the claim asks for true. -/
theorem Check_accepts_broader_mode :
    exDepot.Check ownerOnlyKeyTag looseKeyFS = true ∧
      exDepot.Check ownerOnlyKeyTag narrowKeyFS = false := by
  decide

/-- C2 (the code departs from the claim): `Get` with required permission
`0600` on a file that another user created with mode `0666` returns the file
content and no error, where the claim asks for a permission-denied error and
no data. -/
theorem Get_reads_broader_file :
    exDepot.Get core ownerOnlyKeyTag looseKeyFS = .ok [45, 45, 75, 69, 89] := by
  decide

/-- Counterexample to C3, on the empty depot with non-empty data. Under umask
`022` the tag of permission `0666` is stored with mode `0644` and `Get`
answers permission denied. With the umask cleared, the tag of permission
`01644` is stored with mode `0644` and `Get` answers permission denied; the
tag of permission `0200` is stored as asked but its owner cannot read it; and
the tag named `a/b.host.crt` cannot be created at all. -/
theorem Put_then_Get_fails :
    (exDepot.Put core ⟨"k", 0o666⟩ (some [1]) []
        = ([(exPath "k", ⟨1000, 1000, 0o644, 1, [1]⟩)], none) ∧
      exDepot.Get core ⟨"k", 0o666⟩ (exDepot.Put core ⟨"k", 0o666⟩ (some [1]) []).1
        = .error (errorsNew "permission denied")) ∧
    (exDepot.Put coreNoMask ⟨"x", 0o1644⟩ (some [1]) []
        = ([(exPath "x", ⟨1000, 1000, 0o644, 1, [1]⟩)], none) ∧
      exDepot.Get coreNoMask ⟨"x", 0o1644⟩
          (exDepot.Put coreNoMask ⟨"x", 0o1644⟩ (some [1]) []).1
        = .error (errorsNew "permission denied")) ∧
    (exDepot.Put coreNoMask ⟨"x", 0o200⟩ (some [1]) []
        = ([(exPath "x", ⟨1000, 1000, 0o200, 1, [1]⟩)], none) ∧
      exDepot.Get coreNoMask ⟨"x", 0o200⟩
          (exDepot.Put coreNoMask ⟨"x", 0o200⟩ (some [1]) []).1
        = .error (.pathError "open" "/home/core/.ca/x" "permission denied")) ∧
    exDepot.Put coreNoMask ⟨"a/b.host.crt", 0o444⟩ (some [1]) []
      = ([], some (.pathError "open" "/home/core/.ca/a/b.host.crt"
          "no such file or directory")) := by
  decide

/-- C3, amended: let `t` have a plain file name within the path-length limit
and a permission that consists of permission bits only, none of them in the
umask of the process, and that lets the process read its own file (owner
read bit, or superuser). On a depot with no file named `t.name`, `Put(t, d)`
of non-empty `d` returns no error and adds exactly the file `t.name`, owned
by the process, with mode `t.perm` and content `d`; `Get(t)` on the
resulting depot returns `d`. -/
theorem Put_then_Get (P : Proc) (d : FileDepot) (t : Tag) (data : Bytes) (fs : FS)
    (_hd : data ≠ []) (h : fs.lookup (d.path t.name) = none)
    (hname : plainName t.name = true)
    (hlen : (d.dirPath ++ "/" ++ t.name).utf8ByteSize ≤ 4095)
    (hperm : t.perm &&& ModePerm = t.perm) (hmask : t.perm &&& P.umask = 0)
    (hread : P.uid = 0 ∨ t.perm &&& 0o400 ≠ 0) :
    d.Put P t (some data) fs
        = ((d.path t.name, ⟨P.uid, P.gid, t.perm, data.length, data⟩) :: fs, none) ∧
      d.Get P t (d.Put P t (some data) fs).1 = .ok data := by
  rw [Put_fresh P d t data fs h (createRefusal_plain d t.name hname hlen),
    createdMode_eq t.perm P.umask hperm hmask]
  refine ⟨rfl, ?_⟩
  have hr : mayRead P ⟨P.uid, P.gid, t.perm, data.length, data⟩ = true := by
    rcases hread with h0 | h4
    · simp [mayRead, h0]
    · by_cases h0 : P.uid = 0
      · simp [mayRead, h0]
      · simp [mayRead, h0, h4]
  simp [FileDepot.Get, FileDepot.check, osStat, ioutilReadFile, lookup_cons_self,
    permTest_self, hr]

/-- Witness of C3: under umask `022`, a certificate of permission `0444` put
into the empty depot is read back. -/
theorem Put_then_Get_witness :
    exDepot.Put core readOnlyCrtTag (some [67, 69, 82, 84]) []
        = ((exDepot.path readOnlyCrtTag.name,
            ⟨core.uid, core.gid, readOnlyCrtTag.perm, [67, 69, 82, 84].length,
              [67, 69, 82, 84]⟩) :: [], none) ∧
      exDepot.Get core readOnlyCrtTag
          (exDepot.Put core readOnlyCrtTag (some [67, 69, 82, 84]) []).1
        = .ok [67, 69, 82, 84] :=
  Put_then_Get core exDepot readOnlyCrtTag [67, 69, 82, 84] [] (by decide) (by decide)
    (by decide) (by decide) (by decide) (by decide) (by decide)

/-- C4: when a file named `t.name` exists, `Put(t, d)` with any non-nil `d`
returns the create-exclusive error `file exists` and the file system is the
one it started from. -/
theorem Put_existing_fails (P : Proc) (d : FileDepot) (t : Tag) (data : Bytes) (fs : FS)
    (n : Node) (h : fs.lookup (d.path t.name) = some n) :
    d.Put P t (some data) fs
      = (fs, some (.pathError "open" (d.path t.name).text "file exists")) :=
  Put_taken P d t data fs n h

/-- Witness of C4: a second certificate is refused and the first one stays. -/
theorem Put_existing_fails_witness :
    exDepot.Put core readOnlyCrtTag (some [1, 2, 3]) oneCrtFS
      = (oneCrtFS,
          some (.pathError "open" (exDepot.path readOnlyCrtTag.name).text "file exists")) :=
  Put_existing_fails core exDepot readOnlyCrtTag [1, 2, 3] oneCrtFS
    (regularFile 1000 0o444 [67, 69, 82, 84]) (by decide)

/-- Counterexample to C5: `Put` of a non-nil slice of length 0 into the empty
depot returns no error and creates an empty file. -/
theorem Put_empty_slice_creates_file :
    exDepot.Put core readOnlyCrtTag (some []) []
      = ([(exPath "ca.crt", ⟨1000, 1000, 0o444, 0, []⟩)], none) := by
  decide

/-- C5, amended: `Put(t, nil)` returns the error `data is nil` and leaves the
file system as it was; a non-nil slice of length 0 is never refused with that
error. -/
theorem Put_nil_rejected (P : Proc) (d : FileDepot) (t : Tag) (fs : FS) :
    d.Put P t none fs = (fs, some (errorsNew "data is nil")) ∧
      (d.Put P t (some []) fs).2 ≠ some (errorsNew "data is nil") := by
  refine ⟨rfl, ?_⟩
  cases h : fs.lookup (d.path t.name) with
  | none =>
    rcases Put_fresh_error P d t [] fs h with h1 | ⟨msg, h1⟩
    · rw [h1]; simp
    · rw [h1]; simp [errorsNew]
  | some n => rw [Put_taken P d t [] fs n h]; simp [errorsNew]

/-! ## Lemmas on the export entries -/

theorem generateTarFile_std (file : File) (newName : String) :
    generateTarFile tarFileInfoHeader file newName
      = .ok ⟨⟨newName, tarModeBits file.Info.mode ||| 0o644, file.Info.size⟩, file.Data⟩ := by
  simp [generateTarFile, tarFileInfoHeader]

theorem and_perm_of_special (x s : Nat) (hs : s &&& 0o777 = 0) :
    (x ||| s) &&& 0o777 = x &&& 0o777 := by
  rw [Nat.and_distrib_right, hs, Nat.or_zero]

theorem tarModeBits_perm (mode : Nat) :
    (tarModeBits mode ||| 0o644) &&& ModePerm = (mode &&& ModePerm) ||| 0o644 := by
  have h4 : (0o4000 : Nat) &&& 0o777 = 0 := by decide
  have h2 : (0o2000 : Nat) &&& 0o777 = 0 := by decide
  have h1 : (0o1000 : Nat) &&& 0o777 = 0 := by decide
  have h6 : (0o644 : Nat) &&& 0o777 = 0o644 := by decide
  have hp : ∀ x : Nat, x &&& 0o777 &&& 0o777 = x &&& 0o777 := by
    intro x
    rw [Nat.and_assoc, Nat.and_self]
  unfold tarModeBits ModePerm
  rw [Nat.and_distrib_right, h6]
  congr 1
  simp only []
  split_ifs <;> simp only [and_perm_of_special _ _ h4, and_perm_of_special _ _ h2,
    and_perm_of_special _ _ h1, hp]

theorem outputTarFiles_pair (h1 h2 : TarHeader) (b1 b2 : Bytes)
    (e1 : h1.Size = b1.length) (e2 : h2.Size = b2.length) :
    outputTarFiles tarNewWriter [⟨h1, b1⟩, ⟨h2, b2⟩]
      = (⟨[.header h1, .payload b1, .header h2, .payload b2], 0⟩, none) := by
  simp [outputTarFiles, tarNewWriter, TarWriter.WriteHeader, TarWriter.Write, e1, e2]

theorem decrypt_ok {Key : Type} (X : Collaborators Key) (file out : TarFile) (pass : Bytes)
    (h : decryptEncryptedKeyTarFile X file pass = .ok out) :
    out.Header.Name = file.Header.Name ++ insecureSuffix ∧ out.Header.Size = out.Data.length := by
  unfold decryptEncryptedKeyTarFile at h
  cases hn : X.NewKeyFromEncryptedPrivateKeyPEM file.Data pass with
  | error e => simp [hn] at h
  | ok key =>
    cases hp : X.ExportPrivate key with
    | error e => simp [hn, hp] at h
    | ok data =>
      simp [hn, hp] at h
      subst h
      exact ⟨rfl, rfl⟩

/-- The entries of a successful `getAuthFiles`: their names, and when their
sizes agree with their payloads. -/
theorem getAuthFiles_entries {Key : Type} (X : Collaborators Key) (P : Proc) (d : FileDepot)
    (c : Context) (fs : FS) (files : List TarFile)
    (h : getAuthFiles tarFileInfoHeader X P d c fs = .ok files) :
    ∃ (crtFile keyFile : File) (e1 e2 : TarFile),
      d.GetFile P X.AuthCrtTag fs = .ok crtFile ∧ d.GetFile P X.AuthPrivKeyTag fs = .ok keyFile ∧
      files = [e1, e2] ∧
      e1.Header.Name = "ca.crt" ∧
      e2.Header.Name = (if c.insecure = true then "ca.key.insecure" else "ca.key") ∧
      (e1.Header.Size = e1.Data.length ↔ crtFile.Info.size = crtFile.Data.length) ∧
      (e2.Header.Size = e2.Data.length ↔
        (c.insecure = true ∨ keyFile.Info.size = keyFile.Data.length)) := by
  unfold getAuthFiles at h
  cases hc : d.GetFile P X.AuthCrtTag fs with
  | error e => simp [hc] at h
  | ok crtFile =>
    cases hk : d.GetFile P X.AuthPrivKeyTag fs with
    | error e => simp [hc, hk, generateTarFile_std] at h
    | ok keyFile =>
      cases hi : c.insecure with
      | false =>
        simp [hc, hk, generateTarFile_std, hi] at h
        subst h
        exact ⟨crtFile, keyFile, _, _, rfl, rfl, rfl, rfl, by simp [keySuffix], Iff.rfl,
          by simp⟩
      | true =>
        simp only [hc, hk, generateTarFile_std, hi, if_true] at h
        split at h
        · simp at h
        · next out hd =>
          simp at h
          subst h
          have ho := decrypt_ok X _ _ _ hd
          refine ⟨crtFile, keyFile, _, _, rfl, rfl, rfl, rfl, ?_, Iff.rfl, ?_⟩
          · rw [ho.1]
            rfl
          · simp [ho.2]

/-- The entries of a successful `getHostFiles`: their names, and when their
sizes agree with their payloads. -/
theorem getHostFiles_entries {Key : Type} (X : Collaborators Key) (P : Proc) (d : FileDepot)
    (c : Context) (n : String) (fs : FS) (files : List TarFile)
    (h : getHostFiles tarFileInfoHeader X P d c n fs = .ok files) :
    ∃ (crtFile keyFile : File) (e1 e2 : TarFile),
      d.GetFile P (X.HostCrtTag n) fs = .ok crtFile ∧
      d.GetFile P (X.HostPrivKeyTag n) fs = .ok keyFile ∧
      files = [e1, e2] ∧
      e1.Header.Name = n ++ ".crt" ∧
      e2.Header.Name = (if c.insecure = true then n ++ ".key.insecure" else n ++ ".key") ∧
      (e1.Header.Size = e1.Data.length ↔ crtFile.Info.size = crtFile.Data.length) ∧
      (e2.Header.Size = e2.Data.length ↔
        (c.insecure = true ∨ keyFile.Info.size = keyFile.Data.length)) := by
  unfold getHostFiles at h
  cases hc : d.GetFile P (X.HostCrtTag n) fs with
  | error e => simp [hc] at h
  | ok crtFile =>
    cases hk : d.GetFile P (X.HostPrivKeyTag n) fs with
    | error e => simp [hc, hk, generateTarFile_std] at h
    | ok keyFile =>
      cases hi : c.insecure with
      | false =>
        simp [hc, hk, generateTarFile_std, hi] at h
        subst h
        exact ⟨crtFile, keyFile, _, _, rfl, rfl, rfl, rfl, by simp [keySuffix], Iff.rfl,
          by simp⟩
      | true =>
        simp only [hc, hk, generateTarFile_std, hi, if_true] at h
        split at h
        · simp at h
        · next out hd =>
          simp at h
          subst h
          have ho := decrypt_ok X _ _ _ hd
          refine ⟨crtFile, keyFile, _, _, rfl, rfl, rfl, rfl, ?_, Iff.rfl, ?_⟩
          · rw [ho.1]
            show n ++ keySuffix ++ insecureSuffix = n ++ ".key.insecure"
            rw [String.append_assoc]
            rfl
          · simp [ho.2]

/-! ## Claims on the export pipeline -/

/-- Counterexample to C6: the CA certificate is an entry for which `stat`
reports size 0 while a read returns 6 bytes. Both `GetFile` calls succeed and
the insecure flag is off; `getAuthFiles` returns its two entries, and
`outputTarFiles` stops after the first header with `write too long`, so the
certificate bytes, the key header and the key bytes are not written. -/
theorem export_stops_on_generated_crt :
    exDepot.GetFile core sampleX.AuthCrtTag generatedCrtFS
        = .ok ⟨⟨"ca.crt", 0, 0o444⟩, [67, 65, 67, 69, 82, 84]⟩ ∧
      exDepot.GetFile core sampleX.AuthPrivKeyTag generatedCrtFS
        = .ok ⟨⟨"ca.key", 5, 0o440⟩, [7, 7, 1, 2, 3]⟩ ∧
      getAuthFiles tarFileInfoHeader sampleX core exDepot plainCtx generatedCrtFS
        = .ok [⟨⟨"ca.crt", 0o644, 0⟩, [67, 65, 67, 69, 82, 84]⟩,
            ⟨⟨"ca.key", 0o644, 5⟩, [7, 7, 1, 2, 3]⟩] ∧
      outputTarFiles tarNewWriter [⟨⟨"ca.crt", 0o644, 0⟩, [67, 65, 67, 69, 82, 84]⟩,
            ⟨⟨"ca.key", 0o644, 5⟩, [7, 7, 1, 2, 3]⟩]
        = (⟨[.header ⟨"ca.crt", 0o644, 0⟩, .payload []], 0⟩,
            some (errorsNew "archive/tar: write too long")) := by
  decide

/-- C6, amended: when `GetFile` succeeds for the CA certificate tag and for
the CA key tag and the insecure flag is off, `getAuthFiles` returns exactly
two entries, named `ca.crt` and `ca.key`, whose payloads are the bytes the
depot returned; and when for both files the size that `stat` reported is the
length of the content read, `outputTarFiles` writes header, certificate
bytes, header, key bytes, in this order and nothing else, without error. -/
theorem getAuthFiles_plain {Key : Type} (X : Collaborators Key) (P : Proc) (d : FileDepot)
    (c : Context) (fs : FS) (crtFile keyFile : File)
    (hc : d.GetFile P X.AuthCrtTag fs = .ok crtFile)
    (hk : d.GetFile P X.AuthPrivKeyTag fs = .ok keyFile)
    (hi : c.insecure = false) :
    ∃ h1 h2 : TarHeader,
      h1.Name = "ca.crt" ∧ h2.Name = "ca.key" ∧
      getAuthFiles tarFileInfoHeader X P d c fs
        = .ok [⟨h1, crtFile.Data⟩, ⟨h2, keyFile.Data⟩] ∧
      (crtFile.Info.size = crtFile.Data.length → keyFile.Info.size = keyFile.Data.length →
        outputTarFiles tarNewWriter [⟨h1, crtFile.Data⟩, ⟨h2, keyFile.Data⟩]
          = (⟨[.header h1, .payload crtFile.Data, .header h2, .payload keyFile.Data], 0⟩,
              none)) := by
  refine ⟨⟨"ca.crt", tarModeBits crtFile.Info.mode ||| 0o644, crtFile.Info.size⟩,
    ⟨"ca.key", tarModeBits keyFile.Info.mode ||| 0o644, keyFile.Info.size⟩, rfl, rfl, ?_, ?_⟩
  · simp only [getAuthFiles, hc, hk, generateTarFile_std, hi]
    rfl
  · intro sc sk
    exact outputTarFiles_pair _ _ _ _ sc sk

/-- Witness of C6: the CA pair of the sample depot, two regular files,
exported without flags. -/
theorem getAuthFiles_plain_witness :
    ∃ h1 h2 : TarHeader,
      h1.Name = "ca.crt" ∧ h2.Name = "ca.key" ∧
      getAuthFiles tarFileInfoHeader sampleX core exDepot plainCtx fullFS
        = .ok [⟨h1, [67, 65]⟩, ⟨h2, [7, 7, 1, 2, 3]⟩] ∧
      outputTarFiles tarNewWriter [⟨h1, [67, 65]⟩, ⟨h2, [7, 7, 1, 2, 3]⟩]
        = (⟨[.header h1, .payload [67, 65], .header h2, .payload [7, 7, 1, 2, 3]], 0⟩, none) :=
  match getAuthFiles_plain sampleX core exDepot plainCtx fullFS
    ⟨⟨"ca.crt", 2, 0o444⟩, [67, 65]⟩ ⟨⟨"ca.key", 5, 0o440⟩, [7, 7, 1, 2, 3]⟩
    (by decide) (by decide) (by decide) with
  | ⟨h1, h2, n1, n2, hf, ho⟩ => ⟨h1, h2, n1, n2, hf, ho (by decide) (by decide)⟩

/-- C7: for every host name `n`, when both host artifacts are fetched, the
insecure flag is set and the key transform (`NewKeyFromEncryptedPrivateKeyPEM`
on the key file and the passphrase, then `ExportPrivate`) succeeds with `p`,
`getHostFiles` returns exactly two entries, the first named `n + ".crt"` and
the second named `n + ".key.insecure"`; the second has `Data = p` and
`Header.Size = len(p)`. -/
theorem getHostFiles_insecure {Key : Type} (X : Collaborators Key) (P : Proc) (d : FileDepot)
    (c : Context) (fs : FS) (n : String) (crtFile keyFile : File) (key : Key) (p : Bytes)
    (hc : d.GetFile P (X.HostCrtTag n) fs = .ok crtFile)
    (hk : d.GetFile P (X.HostPrivKeyTag n) fs = .ok keyFile)
    (hi : c.insecure = true)
    (hn : X.NewKeyFromEncryptedPrivateKeyPEM keyFile.Data (getPassPhrase X c (n ++ " key"))
      = .ok key)
    (hp : X.ExportPrivate key = .ok p) :
    ∃ h1 h2 : TarHeader,
      getHostFiles tarFileInfoHeader X P d c n fs = .ok [⟨h1, crtFile.Data⟩, ⟨h2, p⟩] ∧
      h1.Name = n ++ ".crt" ∧ h2.Name = n ++ ".key.insecure" ∧ h2.Size = p.length := by
  refine ⟨⟨n ++ ".crt", tarModeBits crtFile.Info.mode ||| 0o644, crtFile.Info.size⟩,
    ⟨n ++ ".key.insecure", tarModeBits keyFile.Info.mode ||| 0o644, p.length⟩, ?_, rfl, rfl, rfl⟩
  have hs : n ++ keySuffix ++ insecureSuffix = n ++ ".key.insecure" := by
    rw [String.append_assoc]
    rfl
  simp only [getHostFiles, hc, hk, generateTarFile_std, hi, decryptEncryptedKeyTarFile, hn, hp,
    hs, if_true]
  rfl

/-- Witness of C7: host `www` of the sample depot with the right passphrase;
the encrypted key file has 6 bytes, the exported key 4. -/
theorem getHostFiles_insecure_witness :
    ∃ h1 h2 : TarHeader,
      getHostFiles tarFileInfoHeader sampleX core exDepot insecureCtx "www" fullFS
        = .ok [⟨h1, [87, 87, 87]⟩, ⟨h2, [9, 8, 7, 6]⟩] ∧
      h1.Name = "www" ++ ".crt" ∧ h2.Name = "www" ++ ".key.insecure" ∧
      h2.Size = [9, 8, 7, 6].length :=
  getHostFiles_insecure sampleX core exDepot insecureCtx fullFS "www"
    ⟨⟨"www.host.crt", 3, 0o444⟩, [87, 87, 87]⟩ ⟨⟨"www.host.key", 6, 0o440⟩, [7, 7, 9, 8, 7, 6]⟩
    [9, 8, 7, 6] [9, 8, 7, 6] (by decide) (by decide) (by decide) (by decide) (by decide)

/-- Counterexample to C8: the key file of mode `0660`, fetched under the tag
of permission `0660`, gives an export entry with permission bits `0664`, not
`0644`. -/
theorem generateTarFile_keeps_group_write :
    exDepot.GetFile core groupKeyTag groupKeyFS
        = .ok ⟨⟨"ca.key", 5, 0o660⟩, [45, 45, 75, 69, 89]⟩ ∧
      generateTarFile tarFileInfoHeader ⟨⟨"ca.key", 5, 0o660⟩, [45, 45, 75, 69, 89]⟩ "ca.key"
        = .ok ⟨⟨"ca.key", 0o664, 5⟩, [45, 45, 75, 69, 89]⟩ ∧
      (0o664 : Nat) &&& ModePerm ≠ 0o644 := by
  decide

/-- C8, amended: for every depot File and name, `generateTarFile` returns an
entry whose permission bits are the permission bits of the source file mode
or-ed with `0644`: every bit of `0644` is set, and the permission bits of the
source outside `0644` are kept. -/
theorem generateTarFile_mode (file : File) (newName : String) :
    ∃ e : TarFile, generateTarFile tarFileInfoHeader file newName = .ok e ∧
      e.Header.Mode &&& ModePerm = (file.Info.mode &&& ModePerm) ||| 0o644 :=
  ⟨_, generateTarFile_std file newName, tarModeBits_perm file.Info.mode⟩

/-- Counterexample to C10: `GetFile` succeeds on the certificate entry for
which `stat` reports size 0 while a read returns 6 bytes, and
`generateTarFile` returns an entry whose `Header.Size` is 0 while its `Data`
has 6 bytes. -/
theorem generateTarFile_copies_stat_size :
    exDepot.GetFile core sampleX.AuthCrtTag generatedCrtFS
        = .ok ⟨⟨"ca.crt", 0, 0o444⟩, [67, 65, 67, 69, 82, 84]⟩ ∧
      generateTarFile tarFileInfoHeader ⟨⟨"ca.crt", 0, 0o444⟩, [67, 65, 67, 69, 82, 84]⟩ "ca.crt"
        = .ok ⟨⟨"ca.crt", 0o644, 0⟩, [67, 65, 67, 69, 82, 84]⟩ ∧
      (⟨⟨"ca.crt", 0o644, 0⟩, [67, 65, 67, 69, 82, 84]⟩ : TarFile).Header.Size
        ≠ (⟨⟨"ca.crt", 0o644, 0⟩, [67, 65, 67, 69, 82, 84]⟩ : TarFile).Data.length := by
  decide

/-- C10, amended. For every File returned by a successful `GetFile` and every
name `s`, `generateTarFile` returns an entry with `Header.Name = s`, the
`Data` of the File, and `Header.Size` equal to the size that `stat` reported.
A successful `decryptEncryptedKeyTarFile` returns an entry named with the
insecure suffix whose `Header.Size` is the length of its new `Data`. Hence
`getAuthFiles` and `getHostFiles` hand exactly two entries to
`outputTarFiles`: the first carries the certificate export name, the second
the key export name (with the insecure suffix exactly when the flag is set);
the certificate entry has `Header.Size = len(Data)` exactly when the stat
size of the certificate file is the length of its content, and the key entry
exactly when the key was decrypted or the stat size of the key file is the
length of its content. -/
theorem header_size_lockstep {Key : Type} (X : Collaborators Key) (P : Proc) (d : FileDepot)
    (c : Context) (fs : FS) (n : String) :
    (∀ (t : Tag) (file : File) (s : String), d.GetFile P t fs = .ok file →
      ∃ e : TarFile, generateTarFile tarFileInfoHeader file s = .ok e ∧
        e.Header.Name = s ∧ e.Header.Size = file.Info.size ∧ e.Data = file.Data) ∧
    (∀ (file out : TarFile) (pass : Bytes), decryptEncryptedKeyTarFile X file pass = .ok out →
      out.Header.Name = file.Header.Name ++ insecureSuffix ∧
        out.Header.Size = out.Data.length) ∧
    (∀ files, getAuthFiles tarFileInfoHeader X P d c fs = .ok files →
      ∃ (crtFile keyFile : File) (e1 e2 : TarFile),
        d.GetFile P X.AuthCrtTag fs = .ok crtFile ∧
        d.GetFile P X.AuthPrivKeyTag fs = .ok keyFile ∧
        files = [e1, e2] ∧
        e1.Header.Name = "ca.crt" ∧
        e2.Header.Name = (if c.insecure = true then "ca.key.insecure" else "ca.key") ∧
        (e1.Header.Size = e1.Data.length ↔ crtFile.Info.size = crtFile.Data.length) ∧
        (e2.Header.Size = e2.Data.length ↔
          (c.insecure = true ∨ keyFile.Info.size = keyFile.Data.length))) ∧
    (∀ files, getHostFiles tarFileInfoHeader X P d c n fs = .ok files →
      ∃ (crtFile keyFile : File) (e1 e2 : TarFile),
        d.GetFile P (X.HostCrtTag n) fs = .ok crtFile ∧
        d.GetFile P (X.HostPrivKeyTag n) fs = .ok keyFile ∧
        files = [e1, e2] ∧
        e1.Header.Name = n ++ ".crt" ∧
        e2.Header.Name = (if c.insecure = true then n ++ ".key.insecure" else n ++ ".key") ∧
        (e1.Header.Size = e1.Data.length ↔ crtFile.Info.size = crtFile.Data.length) ∧
        (e2.Header.Size = e2.Data.length ↔
          (c.insecure = true ∨ keyFile.Info.size = keyFile.Data.length))) := by
  refine ⟨?_, ?_, ?_, ?_⟩
  · intro t file s _
    exact ⟨_, generateTarFile_std file s, rfl, rfl, rfl⟩
  · intro file out pass h
    exact decrypt_ok X file out pass h
  · intro files h
    exact getAuthFiles_entries X P d c fs files h
  · intro files h
    exact getHostFiles_entries X P d c n fs files h

/-- Witness of C10 on the sample depot: the CA certificate entry, the
decrypted key of host `www`, the CA export without flags and the export of
host `www` with the insecure flag. -/
theorem header_size_lockstep_witness :
    (∃ e : TarFile,
      generateTarFile tarFileInfoHeader ⟨⟨"ca.crt", 2, 0o444⟩, [67, 65]⟩ "ca.crt" = .ok e ∧
        e.Header.Name = "ca.crt" ∧ e.Header.Size = 2 ∧ e.Data = [67, 65]) ∧
    ((⟨⟨"www.key.insecure", 0o644, 4⟩, [9, 8, 7, 6]⟩ : TarFile).Header.Name
        = "www.key" ++ insecureSuffix ∧
      (⟨⟨"www.key.insecure", 0o644, 4⟩, [9, 8, 7, 6]⟩ : TarFile).Header.Size
        = [9, 8, 7, 6].length) ∧
    (∃ (crtFile keyFile : File) (e1 e2 : TarFile),
      exDepot.GetFile core sampleX.AuthCrtTag fullFS = .ok crtFile ∧
      exDepot.GetFile core sampleX.AuthPrivKeyTag fullFS = .ok keyFile ∧
      [(⟨⟨"ca.crt", 0o644, 2⟩, [67, 65]⟩ : TarFile), ⟨⟨"ca.key", 0o644, 5⟩, [7, 7, 1, 2, 3]⟩]
        = [e1, e2] ∧
      e1.Header.Name = "ca.crt" ∧
      e2.Header.Name = (if plainCtx.insecure = true then "ca.key.insecure" else "ca.key") ∧
      (e1.Header.Size = e1.Data.length ↔ crtFile.Info.size = crtFile.Data.length) ∧
      (e2.Header.Size = e2.Data.length ↔
        (plainCtx.insecure = true ∨ keyFile.Info.size = keyFile.Data.length))) ∧
    (∃ (crtFile keyFile : File) (e1 e2 : TarFile),
      exDepot.GetFile core (sampleX.HostCrtTag "www") fullFS = .ok crtFile ∧
      exDepot.GetFile core (sampleX.HostPrivKeyTag "www") fullFS = .ok keyFile ∧
      [(⟨⟨"www.crt", 0o644, 3⟩, [87, 87, 87]⟩ : TarFile),
          ⟨⟨"www.key.insecure", 0o644, 4⟩, [9, 8, 7, 6]⟩]
        = [e1, e2] ∧
      e1.Header.Name = "www" ++ ".crt" ∧
      e2.Header.Name
        = (if insecureCtx.insecure = true then "www" ++ ".key.insecure" else "www" ++ ".key") ∧
      (e1.Header.Size = e1.Data.length ↔ crtFile.Info.size = crtFile.Data.length) ∧
      (e2.Header.Size = e2.Data.length ↔
        (insecureCtx.insecure = true ∨ keyFile.Info.size = keyFile.Data.length))) :=
  have A := header_size_lockstep sampleX core exDepot plainCtx fullFS "www"
  have B := header_size_lockstep sampleX core exDepot insecureCtx fullFS "www"
  ⟨match A.1 sampleX.AuthCrtTag ⟨⟨"ca.crt", 2, 0o444⟩, [67, 65]⟩ "ca.crt" (by decide) with
    | ⟨e, he, hn, hs, hd⟩ => ⟨e, he, hn, hs, hd⟩,
   A.2.1 ⟨⟨"www.key", 0o644, 6⟩, [7, 7, 9, 8, 7, 6]⟩ ⟨⟨"www.key.insecure", 0o644, 4⟩, [9, 8, 7, 6]⟩
     [7, 7] (by decide),
   A.2.2.1 _ (by decide),
   B.2.2.2 _ (by decide)⟩

/-- C9: `getAuthFiles` and `getHostFiles` return an error and no entry list
whenever the certificate fetch, the certificate header generation, the key
fetch, the key header generation or, with the insecure flag set, the key
transform fails, and the error text is the name of the failing step followed
by the text of the cause; a returned list always holds both entries; and when
the selection fails, `newExportAction` exits with code 1 and writes no
archive record. -/
theorem export_all_or_nothing {Key : Type} (hdr : FileInfo → Except GoError TarHeader)
    (X : Collaborators Key) (P : Proc) (d : FileDepot) (c : Context) (fs : FS) (n : String) :
    ((∀ e, d.GetFile P X.AuthCrtTag fs = .error e →
        getAuthFiles hdr X P d c fs
          = .error (errorsNew ("Get CA certificate error: " ++ e.Error))) ∧
      (∀ crtFile e, d.GetFile P X.AuthCrtTag fs = .ok crtFile →
        generateTarFile hdr crtFile "ca.crt" = .error e →
        getAuthFiles hdr X P d c fs
          = .error (errorsNew ("Generate certificate tar file error: " ++ e.Error))) ∧
      (∀ crtFile crtTar e, d.GetFile P X.AuthCrtTag fs = .ok crtFile →
        generateTarFile hdr crtFile "ca.crt" = .ok crtTar →
        d.GetFile P X.AuthPrivKeyTag fs = .error e →
        getAuthFiles hdr X P d c fs = .error (errorsNew ("Get CA key error: " ++ e.Error))) ∧
      (∀ crtFile crtTar keyFile e, d.GetFile P X.AuthCrtTag fs = .ok crtFile →
        generateTarFile hdr crtFile "ca.crt" = .ok crtTar →
        d.GetFile P X.AuthPrivKeyTag fs = .ok keyFile →
        generateTarFile hdr keyFile "ca.key" = .error e →
        getAuthFiles hdr X P d c fs
          = .error (errorsNew ("Generate key tar file error: " ++ e.Error))) ∧
      (∀ crtFile crtTar keyFile keyTar e, d.GetFile P X.AuthCrtTag fs = .ok crtFile →
        generateTarFile hdr crtFile "ca.crt" = .ok crtTar →
        d.GetFile P X.AuthPrivKeyTag fs = .ok keyFile →
        generateTarFile hdr keyFile "ca.key" = .ok keyTar →
        c.insecure = true →
        decryptEncryptedKeyTarFile X keyTar (getPassPhrase X c "ca key") = .error e →
        getAuthFiles hdr X P d c fs
          = .error (errorsNew ("Get decrypted CA key error: " ++ e.Error))) ∧
      (∀ files, getAuthFiles hdr X P d c fs = .ok files → files.length = 2)) ∧
    ((∀ e, d.GetFile P (X.HostCrtTag n) fs = .error e →
        getHostFiles hdr X P d c n fs
          = .error (errorsNew ("Get host certificate error: " ++ e.Error))) ∧
      (∀ crtFile e, d.GetFile P (X.HostCrtTag n) fs = .ok crtFile →
        generateTarFile hdr crtFile (n ++ ".crt") = .error e →
        getHostFiles hdr X P d c n fs
          = .error (errorsNew ("Generate certificate tar file error: " ++ e.Error))) ∧
      (∀ crtFile crtTar e, d.GetFile P (X.HostCrtTag n) fs = .ok crtFile →
        generateTarFile hdr crtFile (n ++ ".crt") = .ok crtTar →
        d.GetFile P (X.HostPrivKeyTag n) fs = .error e →
        getHostFiles hdr X P d c n fs = .error (errorsNew ("Get host key error: " ++ e.Error))) ∧
      (∀ crtFile crtTar keyFile e, d.GetFile P (X.HostCrtTag n) fs = .ok crtFile →
        generateTarFile hdr crtFile (n ++ ".crt") = .ok crtTar →
        d.GetFile P (X.HostPrivKeyTag n) fs = .ok keyFile →
        generateTarFile hdr keyFile (n ++ ".key") = .error e →
        getHostFiles hdr X P d c n fs
          = .error (errorsNew ("Generate key tar file error: " ++ e.Error))) ∧
      (∀ crtFile crtTar keyFile keyTar e, d.GetFile P (X.HostCrtTag n) fs = .ok crtFile →
        generateTarFile hdr crtFile (n ++ ".crt") = .ok crtTar →
        d.GetFile P (X.HostPrivKeyTag n) fs = .ok keyFile →
        generateTarFile hdr keyFile (n ++ ".key") = .ok keyTar →
        c.insecure = true →
        decryptEncryptedKeyTarFile X keyTar (getPassPhrase X c (n ++ " key")) = .error e →
        getHostFiles hdr X P d c n fs
          = .error (errorsNew ("Get decrypted host key error: " ++ e.Error))) ∧
      (∀ files, getHostFiles hdr X P d c n fs = .ok files → files.length = 2)) ∧
    (∀ e, (match c.args with
          | [] => getAuthFiles hdr X P d c fs
          | host :: _ => getHostFiles hdr X P d c host fs) = .error e →
      (newExportAction hdr X P d c fs).exitCode = 1 ∧
        (newExportAction hdr X P d c fs).stdout = []) := by
  have hca : ("ca" : String) ++ crtSuffix = "ca.crt" := rfl
  have hck : ("ca" : String) ++ keySuffix = "ca.key" := rfl
  have hcp : ("ca" : String) ++ " key" = "ca key" := rfl
  refine ⟨⟨?_, ?_, ?_, ?_, ?_, ?_⟩, ⟨?_, ?_, ?_, ?_, ?_, ?_⟩, ?_⟩
  · intro e h1
    simp only [getAuthFiles, h1]
  · intro crtFile e h1 h2
    simp only [getAuthFiles, h1, hca, h2]
  · intro crtFile crtTar e h1 h2 h3
    simp only [getAuthFiles, h1, hca, h2, h3]
  · intro crtFile crtTar keyFile e h1 h2 h3 h4
    simp only [getAuthFiles, h1, hca, h2, h3, hck, h4]
  · intro crtFile crtTar keyFile keyTar e h1 h2 h3 h4 h5 h6
    simp only [getAuthFiles, h1, hca, h2, h3, hck, h4, h5, hcp, h6, if_true]
  · intro files h
    cases h1 : d.GetFile P X.AuthCrtTag fs with
    | error e => simp [getAuthFiles, h1] at h
    | ok crtFile =>
      cases h2 : generateTarFile hdr crtFile ("ca" ++ crtSuffix) with
      | error e => simp [getAuthFiles, h1, h2] at h
      | ok crtTar =>
        cases h3 : d.GetFile P X.AuthPrivKeyTag fs with
        | error e => simp [getAuthFiles, h1, h2, h3] at h
        | ok keyFile =>
          cases h4 : generateTarFile hdr keyFile ("ca" ++ keySuffix) with
          | error e => simp [getAuthFiles, h1, h2, h3, h4] at h
          | ok keyTar =>
            cases h5 : c.insecure with
            | false =>
              simp [getAuthFiles, h1, h2, h3, h4, h5] at h
              subst h
              rfl
            | true =>
              cases h6 : decryptEncryptedKeyTarFile X keyTar (getPassPhrase X c "ca key") with
              | error e => simp [getAuthFiles, h1, h2, h3, h4, h5, h6] at h
              | ok out =>
                simp [getAuthFiles, h1, h2, h3, h4, h5, h6] at h
                subst h
                rfl
  · intro e h1
    simp only [getHostFiles, h1]
  · intro crtFile e h1 h2
    simp only [getHostFiles, h1, crtSuffix, h2]
  · intro crtFile crtTar e h1 h2 h3
    simp only [getHostFiles, h1, crtSuffix, h2, h3]
  · intro crtFile crtTar keyFile e h1 h2 h3 h4
    simp only [getHostFiles, h1, crtSuffix, h2, h3, keySuffix, h4]
  · intro crtFile crtTar keyFile keyTar e h1 h2 h3 h4 h5 h6
    simp only [getHostFiles, h1, crtSuffix, h2, h3, keySuffix, h4, h5, h6, if_true]
  · intro files h
    cases h1 : d.GetFile P (X.HostCrtTag n) fs with
    | error e => simp [getHostFiles, h1] at h
    | ok crtFile =>
      cases h2 : generateTarFile hdr crtFile (n ++ crtSuffix) with
      | error e => simp [getHostFiles, h1, h2] at h
      | ok crtTar =>
        cases h3 : d.GetFile P (X.HostPrivKeyTag n) fs with
        | error e => simp [getHostFiles, h1, h2, h3] at h
        | ok keyFile =>
          cases h4 : generateTarFile hdr keyFile (n ++ keySuffix) with
          | error e => simp [getHostFiles, h1, h2, h3, h4] at h
          | ok keyTar =>
            cases h5 : c.insecure with
            | false =>
              simp [getHostFiles, h1, h2, h3, h4, h5] at h
              subst h
              rfl
            | true =>
              cases h6 : decryptEncryptedKeyTarFile X keyTar (getPassPhrase X c (n ++ " key")) with
              | error e => simp [getHostFiles, h1, h2, h3, h4, h5, h6] at h
              | ok out =>
                simp [getHostFiles, h1, h2, h3, h4, h5, h6] at h
                subst h
                rfl
  · intro e h
    unfold newExportAction
    split_ifs
    · exact ⟨rfl, rfl⟩
    · exact ⟨rfl, rfl⟩
    · simp [h]

/-- Witness of C9 on the sample depot: each of the ten failing steps, both
successful selections, and a run of the command whose key fetch fails. -/
theorem export_all_or_nothing_witness :
    (getAuthFiles tarFileInfoHeader sampleX core exDepot plainCtx []
        = .error (errorsNew
          "Get CA certificate error: stat /home/core/.ca/ca.crt: no such file or directory") ∧
      getAuthFiles (failingHeaderOn "ca.crt") sampleX core exDepot plainCtx fullFS
        = .error (errorsNew
          "Generate certificate tar file error: archive/tar: unknown file mode") ∧
      getAuthFiles tarFileInfoHeader sampleX core exDepot plainCtx crtOnlyFS
        = .error (errorsNew "Get CA key error: stat /home/core/.ca/ca.key: no such file or directory") ∧
      getAuthFiles (failingHeaderOn "ca.key") sampleX core exDepot plainCtx fullFS
        = .error (errorsNew "Generate key tar file error: archive/tar: unknown file mode") ∧
      getAuthFiles tarFileInfoHeader sampleX core exDepot wrongPassCaCtx fullFS
        = .error (errorsNew
          "Get decrypted CA key error: x509: decryption password incorrect") ∧
      [(⟨⟨"ca.crt", 0o644, 2⟩, [67, 65]⟩ : TarFile),
        ⟨⟨"ca.key", 0o644, 5⟩, [7, 7, 1, 2, 3]⟩].length = 2) ∧
    (getHostFiles tarFileInfoHeader sampleX core exDepot hostCtx "www" []
        = .error (errorsNew
          "Get host certificate error: stat /home/core/.ca/www.host.crt: no such file or directory") ∧
      getHostFiles (failingHeaderOn "www.host.crt") sampleX core exDepot hostCtx "www" fullFS
        = .error (errorsNew
          "Generate certificate tar file error: archive/tar: unknown file mode") ∧
      getHostFiles tarFileInfoHeader sampleX core exDepot hostCtx "www" crtOnlyFS
        = .error (errorsNew
          "Get host key error: stat /home/core/.ca/www.host.key: no such file or directory") ∧
      getHostFiles (failingHeaderOn "www.host.key") sampleX core exDepot hostCtx "www" fullFS
        = .error (errorsNew "Generate key tar file error: archive/tar: unknown file mode") ∧
      getHostFiles tarFileInfoHeader sampleX core exDepot wrongPassCtx "www" fullFS
        = .error (errorsNew
          "Get decrypted host key error: x509: decryption password incorrect") ∧
      [(⟨⟨"www.crt", 0o644, 3⟩, [87, 87, 87]⟩ : TarFile),
        ⟨⟨"www.key", 0o644, 6⟩, [7, 7, 9, 8, 7, 6]⟩].length = 2) ∧
    ((newExportAction tarFileInfoHeader sampleX core exDepot plainCtx crtOnlyFS).exitCode = 1 ∧
      (newExportAction tarFileInfoHeader sampleX core exDepot plainCtx crtOnlyFS).stdout = []) :=
  have W1 := export_all_or_nothing tarFileInfoHeader sampleX core exDepot plainCtx [] "www"
  have W2 := export_all_or_nothing (failingHeaderOn "ca.crt") sampleX core exDepot plainCtx fullFS "www"
  have W3 := export_all_or_nothing tarFileInfoHeader sampleX core exDepot plainCtx crtOnlyFS "www"
  have W4 := export_all_or_nothing (failingHeaderOn "ca.key") sampleX core exDepot plainCtx fullFS "www"
  have W5 := export_all_or_nothing tarFileInfoHeader sampleX core exDepot wrongPassCaCtx fullFS "www"
  have W6 := export_all_or_nothing tarFileInfoHeader sampleX core exDepot plainCtx fullFS "www"
  have H1 := export_all_or_nothing tarFileInfoHeader sampleX core exDepot hostCtx [] "www"
  have H2 := export_all_or_nothing (failingHeaderOn "www.host.crt") sampleX core exDepot hostCtx
    fullFS "www"
  have H3 := export_all_or_nothing tarFileInfoHeader sampleX core exDepot hostCtx crtOnlyFS "www"
  have H4 := export_all_or_nothing (failingHeaderOn "www.host.key") sampleX core exDepot hostCtx
    fullFS "www"
  have H5 := export_all_or_nothing tarFileInfoHeader sampleX core exDepot wrongPassCtx fullFS "www"
  have H6 := export_all_or_nothing tarFileInfoHeader sampleX core exDepot hostCtx fullFS "www"
  ⟨⟨W1.1.1 (.pathError "stat" "/home/core/.ca/ca.crt" "no such file or directory") (by decide),
    W2.1.2.1 ⟨⟨"ca.crt", 2, 0o444⟩, [67, 65]⟩ (errorsNew "archive/tar: unknown file mode")
      (by decide) (by decide),
    W3.1.2.2.1 ⟨⟨"ca.crt", 2, 0o444⟩, [67, 65]⟩ ⟨⟨"ca.crt", 0o644, 2⟩, [67, 65]⟩
      (.pathError "stat" "/home/core/.ca/ca.key" "no such file or directory")
      (by decide) (by decide) (by decide),
    W4.1.2.2.2.1 ⟨⟨"ca.crt", 2, 0o444⟩, [67, 65]⟩ ⟨⟨"ca.crt", 0o644, 2⟩, [67, 65]⟩
      ⟨⟨"ca.key", 5, 0o440⟩, [7, 7, 1, 2, 3]⟩ (errorsNew "archive/tar: unknown file mode")
      (by decide) (by decide) (by decide) (by decide),
    W5.1.2.2.2.2.1 ⟨⟨"ca.crt", 2, 0o444⟩, [67, 65]⟩ ⟨⟨"ca.crt", 0o644, 2⟩, [67, 65]⟩
      ⟨⟨"ca.key", 5, 0o440⟩, [7, 7, 1, 2, 3]⟩ ⟨⟨"ca.key", 0o644, 5⟩, [7, 7, 1, 2, 3]⟩
      (errorsNew "x509: decryption password incorrect")
      (by decide) (by decide) (by decide) (by decide) (by decide) (by decide),
    W6.1.2.2.2.2.2 _ (by decide)⟩,
   ⟨H1.2.1.1 (.pathError "stat" "/home/core/.ca/www.host.crt" "no such file or directory") (by decide),
    H2.2.1.2.1 ⟨⟨"www.host.crt", 3, 0o444⟩, [87, 87, 87]⟩
      (errorsNew "archive/tar: unknown file mode") (by decide) (by decide),
    H3.2.1.2.2.1 ⟨⟨"www.host.crt", 3, 0o444⟩, [87, 87, 87]⟩ ⟨⟨"www.crt", 0o644, 3⟩, [87, 87, 87]⟩
      (.pathError "stat" "/home/core/.ca/www.host.key" "no such file or directory")
      (by decide) (by decide) (by decide),
    H4.2.1.2.2.2.1 ⟨⟨"www.host.crt", 3, 0o444⟩, [87, 87, 87]⟩
      ⟨⟨"www.crt", 0o644, 3⟩, [87, 87, 87]⟩ ⟨⟨"www.host.key", 6, 0o440⟩, [7, 7, 9, 8, 7, 6]⟩
      (errorsNew "archive/tar: unknown file mode")
      (by decide) (by decide) (by decide) (by decide),
    H5.2.1.2.2.2.2.1 ⟨⟨"www.host.crt", 3, 0o444⟩, [87, 87, 87]⟩
      ⟨⟨"www.crt", 0o644, 3⟩, [87, 87, 87]⟩ ⟨⟨"www.host.key", 6, 0o440⟩, [7, 7, 9, 8, 7, 6]⟩
      ⟨⟨"www.key", 0o644, 6⟩, [7, 7, 9, 8, 7, 6]⟩
      (errorsNew "x509: decryption password incorrect")
      (by decide) (by decide) (by decide) (by decide) (by decide) (by decide),
    H6.2.1.2.2.2.2.2 _ (by decide)⟩,
   W3.2.2 (errorsNew "Get CA key error: stat /home/core/.ca/ca.key: no such file or directory")
     (by decide)⟩

end CaCtl
